import Mathlib

/-!
Verification development for the SeaLionMCP server.

Shallow embedding of the request-handling core of the repository:
the sliding-window rate limiter (`src/utils/rateLimiter.ts`), the
call-tool pipeline of the server (`server.js`), the input sanitizer,
the upstream client error classification and request defaulting
(`services/sealionClient.ts`), the three tool handlers
(`tools/textGeneration.ts`, `tools/translation.js`,
`tools/culturalAnalysis.ts`), and the two versions of the
cultural-analysis input validator (the TypeScript source and the
compiled JavaScript).

Machine integers of the source (millisecond timestamps, token counts)
are modelled as `Int`/`Nat`; JavaScript numbers used as temperatures
are modelled as `Rat`.  Strings are modelled as Lean `String`
(lists of characters).
-/

namespace SeaLionMCP

/-! ## Rate limiter (`src/utils/rateLimiter.ts`)

State: a list of admission timestamps plus the fixed capacity
`maxRequests` and window `windowMs`.  JavaScript `Date.now()` values
are modelled as `Int` so that `currentTime - windowMs` behaves exactly
as in the source even near zero.
-/

structure RateLimiter where
  requests : List Int
  maxRequests : Nat
  windowMs : Int
deriving Repr, DecidableEq

/-- `new RateLimiter(maxRequests, windowMs)`: empty history. -/
def RateLimiter.mk0 (maxRequests : Nat) (windowMs : Int) : RateLimiter :=
  { requests := [], maxRequests := maxRequests, windowMs := windowMs }

/-- `cleanupOldRequests(currentTime)`: keep timestamps `t` with
`t > currentTime - windowMs`. -/
def cleanupOldRequests (currentTime : Int) (rl : RateLimiter) : RateLimiter :=
  { rl with requests := rl.requests.filter (fun t => currentTime - rl.windowMs < t) }

/-- `allowRequest()` at time `now`: cleanup, then admit (appending `now`)
iff the retained count is below capacity.  Returns the admission flag
and the updated state. -/
def allowRequest (now : Int) (rl : RateLimiter) : Bool × RateLimiter :=
  let cleaned := cleanupOldRequests now rl
  if cleaned.requests.length < cleaned.maxRequests then
    (true, { cleaned with requests := cleaned.requests ++ [now] })
  else
    (false, cleaned)

/-- `getCurrentCount()` at time `now`: cleanup, then the retained count. -/
def getCurrentCount (now : Int) (rl : RateLimiter) : Nat :=
  (cleanupOldRequests now rl).requests.length

/-- `getRemainingRequests()` at time `now`.  `Math.max(0, maxRequests -
count)` coincides with truncated `Nat` subtraction. -/
def getRemainingRequests (now : Int) (rl : RateLimiter) : Nat :=
  rl.maxRequests - getCurrentCount now rl

/-- `k` successive `allowRequest()` calls, all at time `t`: the list of
admission flags and the final state. -/
def allowN : Nat → Int → RateLimiter → List Bool × RateLimiter
  | 0, _, rl => ([], rl)
  | k + 1, t, rl =>
    let r := allowRequest t rl
    let rest := allowN k t r.2
    (r.1 :: rest.1, rest.2)

/-! Basic rate-limiter lemmas. -/

theorem cleanup_replicate_self (j : Nat) (t w : Int) (n : Nat) (hw : 0 < w) :
    cleanupOldRequests t { requests := List.replicate j t, maxRequests := n, windowMs := w } =
      { requests := List.replicate j t, maxRequests := n, windowMs := w } := by
  simp only [cleanupOldRequests]
  congr 1
  apply List.filter_eq_self.2
  intro a ha
  have : a = t := List.eq_of_mem_replicate ha
  subst this
  simp only [decide_eq_true_eq]
  omega

theorem allowN_replicate (t w : Int) (n : Nat) (hw : 0 < w) :
    ∀ k j : Nat, j + k ≤ n →
      allowN k t { requests := List.replicate j t, maxRequests := n, windowMs := w } =
        (List.replicate k true,
         { requests := List.replicate (j + k) t, maxRequests := n, windowMs := w }) := by
  intro k
  induction k with
  | zero => intro j _; simp [allowN]
  | succ m ih =>
    intro j hj
    have hstep : allowRequest t { requests := List.replicate j t, maxRequests := n, windowMs := w } =
        (true, { requests := List.replicate (j + 1) t, maxRequests := n, windowMs := w }) := by
      simp only [allowRequest, cleanup_replicate_self j t w n hw]
      have hlt : (List.replicate j t).length < n := by
        simp only [List.length_replicate]; omega
      simp only [hlt, if_pos]
      have : List.replicate j t ++ [t] = List.replicate (j + 1) t := by
        rw [List.replicate_succ' (n := j)]
      simp [this]
    have ihj : allowN m t { requests := List.replicate (j + 1) t, maxRequests := n, windowMs := w } =
        (List.replicate m true,
         { requests := List.replicate ((j + 1) + m) t, maxRequests := n, windowMs := w }) := by
      apply ih; omega
    simp only [allowN, hstep, ihj]
    have h1 : true :: List.replicate m true = List.replicate (m + 1) true := by
      simp [List.replicate_succ]
    have h2 : j + 1 + m = j + (m + 1) := by omega
    rw [h1, h2]

theorem cleanup_replicate_expired (j : Nat) (t0 t1 w : Int) (n : Nat) (ht : t0 + w ≤ t1) :
    cleanupOldRequests t1 { requests := List.replicate j t0, maxRequests := n, windowMs := w } =
      { requests := [], maxRequests := n, windowMs := w } := by
  simp only [cleanupOldRequests]
  congr 1
  apply List.filter_eq_nil_iff.2
  intro a ha
  have : a = t0 := List.eq_of_mem_replicate ha
  subst this
  simp only [decide_eq_true_eq]
  omega

/-- **C1.** For a rate limiter constructed with capacity `N` and window `W`:
all `N` calls to `allowRequest()` made at one instant `t0` are admitted,
the `(N+1)`-th call at `t0` is denied, and at any time `t1 ≥ t0 + W`
with no intervening calls `getCurrentCount()` reports `0` and the next
`allowRequest()` call is admitted. -/
theorem C1_rate_limiter_sliding_window (N : Nat) (W t0 t1 : Int)
    (hN : 0 < N) (hW : 0 < W) (ht : t0 + W ≤ t1) :
    (allowN N t0 (RateLimiter.mk0 N W)).1 = List.replicate N true ∧
    (allowRequest t0 (allowN N t0 (RateLimiter.mk0 N W)).2).1 = false ∧
    getCurrentCount t1 (allowRequest t0 (allowN N t0 (RateLimiter.mk0 N W)).2).2 = 0 ∧
    (allowRequest t1 (allowRequest t0 (allowN N t0 (RateLimiter.mk0 N W)).2).2).1 = true := by
  have hmk : RateLimiter.mk0 N W =
      { requests := List.replicate 0 t0, maxRequests := N, windowMs := W } := by
    simp [RateLimiter.mk0]
  have hN0 : (0 : Nat) + N ≤ N := by omega
  have hrun := allowN_replicate t0 W N hW N 0 hN0
  rw [hmk, hrun]
  have hdeny : allowRequest t0
      { requests := List.replicate (0 + N) t0, maxRequests := N, windowMs := W } =
      (false, { requests := List.replicate (0 + N) t0, maxRequests := N, windowMs := W }) := by
    simp only [allowRequest, cleanup_replicate_self (0 + N) t0 W N hW]
    have hnlt : ¬ (List.replicate (0 + N) t0).length < N := by
      simp only [List.length_replicate]; omega
    simp [hnlt]
  rw [hdeny]
  refine ⟨rfl, rfl, ?_, ?_⟩
  · simp only [getCurrentCount, cleanup_replicate_expired (0 + N) t0 t1 W N ht,
      List.length_nil]
  · simp only [allowRequest, cleanup_replicate_expired (0 + N) t0 t1 W N ht]
    simp [hN]

/-- Witness for C1 at `N = 2`, `W = 60000`, `t0 = 0`, `t1 = 60000`. -/
theorem C1_rate_limiter_sliding_window_witness :
    (allowN 2 0 (RateLimiter.mk0 2 60000)).1 = List.replicate 2 true ∧
    (allowRequest 0 (allowN 2 0 (RateLimiter.mk0 2 60000)).2).1 = false ∧
    getCurrentCount 60000 (allowRequest 0 (allowN 2 0 (RateLimiter.mk0 2 60000)).2).2 = 0 ∧
    (allowRequest 60000 (allowRequest 0 (allowN 2 0 (RateLimiter.mk0 2 60000)).2).2).1 = true :=
  C1_rate_limiter_sliding_window 2 60000 0 60000 (by decide) (by decide) (by decide)

/-! ## Call-tool pipeline (`server.js`, `setupHandlers`)

The `CallToolRequestSchema` handler: rate-limit admission first, then
tool resolution, then the argument shape check, then the guarded block
(schema parse / sanitize / dispatch / output sanitize) whose outcome is
mapped onto MCP error codes in the `catch` clause.  Only the three MCP
error codes that the source actually uses appear. -/

inductive McpErrorCode where
  | internalError
  | methodNotFound
  | invalidParams
deriving Repr, DecidableEq

structure McpError where
  code : McpErrorCode
  message : String
deriving Repr, DecidableEq

/-- Outcome of the guarded block of the handler (schema validation,
sanitization, dispatch, output sanitization), as observed by the
`catch` clause: success with the response text, a Zod validation
error, a rethrown `McpError`, or any other exception. -/
inductive ToolRunOutcome where
  | ok (text : String)
  | zodError (detail : String)
  | mcpError (e : McpError)
  | otherError (msg : String)
deriving Repr, DecidableEq

/-- The call-tool request handler.  `registry` is the list of registered
tool names, `argsPresent` the result of the argument shape check
(`args` present and an object), and `run` the outcome of the guarded
block when it is reached.  Returns the response (or MCP error) and the
rate limiter state after the request. -/
def handleCallTool (rl : RateLimiter) (now : Int) (name : String)
    (registry : List String) (argsPresent : Bool) (run : ToolRunOutcome) :
    Except McpError String × RateLimiter :=
  let admitted := allowRequest now rl
  if !admitted.1 then
    (.error ⟨.internalError,
      "Rate limit exceeded. Please wait before making another request."⟩, admitted.2)
  else if !(registry.contains name) then
    (.error ⟨.methodNotFound, "Unknown tool: " ++ name⟩, admitted.2)
  else if !argsPresent then
    (.error ⟨.invalidParams, "Tool arguments are required and must be an object"⟩, admitted.2)
  else
    match run with
    | .ok text => (.ok text, admitted.2)
    | .zodError detail => (.error ⟨.invalidParams, "Invalid parameters: " ++ detail⟩, admitted.2)
    | .mcpError e => (.error e, admitted.2)
    | .otherError msg =>
        (.error ⟨.internalError, "Tool execution failed: " ++ msg⟩, admitted.2)

/-- The three registered tool names (`setupTools`). -/
def registeredTools : List String :=
  ["sealion_generate_text", "sealion_translate", "sealion_cultural_analysis"]

theorem allowRequest_admitted (now : Int) (rl : RateLimiter)
    (h : (allowRequest now rl).1 = true) :
    (allowRequest now rl).2.requests = (cleanupOldRequests now rl).requests ++ [now] := by
  simp only [allowRequest]
  split
  · rfl
  · simp only [allowRequest] at h
    split at h
    · exact absurd h (by simp_all)
    · exact absurd h (by simp)

theorem handleCallTool_state (rl : RateLimiter) (now : Int) (name : String)
    (registry : List String) (argsPresent : Bool) (run : ToolRunOutcome) :
    (handleCallTool rl now name registry argsPresent run).2 = (allowRequest now rl).2 := by
  simp only [handleCallTool]
  split
  · rfl
  · split
    · rfl
    · split
      · rfl
      · cases run <;> rfl

/-- **C2 counterexample.** A request denied by the rate limiter
(capacity 0, so the very first call is denied) is failed with the
*internal* error classification — the same `ErrorCode.InternalError`
used for generic failures — not a distinct throttling classification. -/
theorem C2_counterexample_denial_is_internal_error :
    (handleCallTool (RateLimiter.mk0 0 60000) 0 "sealion_generate_text"
        registeredTools true (.ok "Hi there")).1 =
      .error ⟨.internalError,
        "Rate limit exceeded. Please wait before making another request."⟩ ∧
    (handleCallTool (RateLimiter.mk0 10 60000) 0 "sealion_generate_text"
        registeredTools true (.otherError "boom")).1 =
      .error ⟨.internalError, "Tool execution failed: boom"⟩ := by
  constructor <;> rfl

/-- **C2 (amended).** For every inbound tool-invocation request denied by
the rate limiter, the pipeline fails that request immediately with the
internal error classification (`ErrorCode.InternalError`) carrying the
rate-limit message, before any tool resolution or validation runs: the
result is independent of the tool name, the argument shape check, and
the guarded block, and the only state change is the limiter's own
cleanup. -/
theorem C2_denied_request_fails_before_resolution (rl : RateLimiter) (now : Int)
    (name : String) (registry : List String) (argsPresent : Bool) (run : ToolRunOutcome)
    (hdeny : (allowRequest now rl).1 = false) :
    handleCallTool rl now name registry argsPresent run =
      (.error ⟨.internalError,
        "Rate limit exceeded. Please wait before making another request."⟩,
       (allowRequest now rl).2) := by
  simp only [handleCallTool, hdeny]
  rfl

/-- Witness for C2 (amended): a limiter of capacity 0 denies the first
request, independently of an unknown tool name and absent arguments. -/
theorem C2_denied_request_fails_before_resolution_witness :
    handleCallTool (RateLimiter.mk0 0 60000) 0 "no_such_tool" registeredTools false
        (.ok "unreachable") =
      (.error ⟨.internalError,
        "Rate limit exceeded. Please wait before making another request."⟩,
       (allowRequest 0 (RateLimiter.mk0 0 60000)).2) :=
  C2_denied_request_fails_before_resolution (RateLimiter.mk0 0 60000) 0 "no_such_tool"
    registeredTools false (.ok "unreachable") (by decide)

/-- **C9.** For every request admitted by the rate limiter, the timestamp
appended at admission is retained no matter how the rest of the request
fares: the limiter state after the request is `cleanup ++ [now]`, it is
identical for any two outcomes of the guarded block (schema violation,
handler error, success, ...), and therefore `getRemainingRequests()`
at any later query time agrees between a failed and a successful
request. -/
theorem C9_admission_timestamp_retained_on_failure (rl : RateLimiter) (now : Int)
    (name : String) (registry : List String) (argsPresent : Bool)
    (run run' : ToolRunOutcome)
    (hadm : (allowRequest now rl).1 = true) :
    (handleCallTool rl now name registry argsPresent run).2.requests =
      (cleanupOldRequests now rl).requests ++ [now] ∧
    (handleCallTool rl now name registry argsPresent run).2 =
      (handleCallTool rl now name registry argsPresent run').2 ∧
    ∀ t : Int,
      getRemainingRequests t (handleCallTool rl now name registry argsPresent run).2 =
        getRemainingRequests t (handleCallTool rl now name registry argsPresent run').2 := by
  refine ⟨?_, ?_, ?_⟩
  · rw [handleCallTool_state]
    exact allowRequest_admitted now rl hadm
  · rw [handleCallTool_state, handleCallTool_state]
  · intro t
    rw [handleCallTool_state, handleCallTool_state]

/-- Witness for C9: a fresh limiter admits the request; a handler
exception (`otherError`) and a success leave the same limiter state. -/
theorem C9_admission_timestamp_retained_on_failure_witness :
    (handleCallTool (RateLimiter.mk0 10 60000) 0 "sealion_generate_text"
        registeredTools true (.otherError "boom")).2.requests =
      (cleanupOldRequests 0 (RateLimiter.mk0 10 60000)).requests ++ [0] ∧
    (handleCallTool (RateLimiter.mk0 10 60000) 0 "sealion_generate_text"
        registeredTools true (.otherError "boom")).2 =
      (handleCallTool (RateLimiter.mk0 10 60000) 0 "sealion_generate_text"
        registeredTools true (.ok "Hi there")).2 ∧
    ∀ t : Int,
      getRemainingRequests t (handleCallTool (RateLimiter.mk0 10 60000) 0
        "sealion_generate_text" registeredTools true (.otherError "boom")).2 =
      getRemainingRequests t (handleCallTool (RateLimiter.mk0 10 60000) 0
        "sealion_generate_text" registeredTools true (.ok "Hi there")).2 :=
  C9_admission_timestamp_retained_on_failure (RateLimiter.mk0 10 60000) 0
    "sealion_generate_text" registeredTools true (.otherError "boom") (.ok "Hi there")
    (by decide)

/-! ## Upstream chat requests (`types/index.ts`, `services/sealionClient.ts`)

`ChatRequest` is the parameter object a tool handler passes to
`SeaLionClient.generateText`; `SentChatRequest` is the request object
`generateText` actually hands to the HTTP client after applying its
JavaScript `||` defaults (`max_tokens: params.max_tokens || 512`,
`temperature: params.temperature || 0.7`), under which the falsy
values `undefined` and `0` are both replaced by the default. -/

inductive Role where
  | system
  | user
  | assistant
deriving Repr, DecidableEq

structure ChatMessage where
  role : Role
  content : String
deriving Repr, DecidableEq

/-- The optional `extra_body.chat_template_kwargs.thinking_mode` value. -/
structure ChatRequest where
  model : String
  messages : List ChatMessage
  max_tokens : Option Nat
  temperature : Option Rat
  extra_body : Option String
deriving Repr, DecidableEq

structure SentChatRequest where
  model : String
  messages : List ChatMessage
  max_tokens : Nat
  temperature : Rat
  extra_body : Option String
deriving Repr, DecidableEq

/-- JavaScript `v || d` on an optional number: `undefined` and `0` are
falsy, any other number is kept. -/
def jsOrNat (v : Option Nat) (d : Nat) : Nat :=
  match v with
  | none => d
  | some n => if n = 0 then d else n

/-- JavaScript `v || d` on an optional number modelled as a rational. -/
def jsOrRat (v : Option Rat) (d : Rat) : Rat :=
  match v with
  | none => d
  | some q => if q = 0 then d else q

/-- The `requestParams` object `generateText` passes to
`client.chat.completions.create` (sealionClient, lines 83-94). -/
def sentRequestParams (p : ChatRequest) : SentChatRequest :=
  { model := p.model
    messages := p.messages
    max_tokens := jsOrNat p.max_tokens 512
    temperature := jsOrRat p.temperature (7 / 10)
    extra_body := p.extra_body }

/-- `pat` is a prefix of `l` (Boolean). -/
def startsWithChars : List Char → List Char → Bool
  | [], _ => true
  | _ :: _, [] => false
  | a :: as, b :: bs => a == b && startsWithChars as bs

/-- `pat` occurs somewhere in `l` (Boolean). -/
def infixChars (pat : List Char) : List Char → Bool
  | [] => startsWithChars pat []
  | c :: rest => startsWithChars pat (c :: rest) || infixChars pat rest

/-- `pat` occurs as a substring of `s` (JavaScript
`message.includes(pat)`). -/
def containsSub (pat s : String) : Bool :=
  infixChars pat.data s.data

/-- The `catch` clause of `generateText` (sealionClient, lines 109-124):
the message of the error thrown for a failing upstream call, chosen by
substring tests on the original error message. -/
def generateTextFailureMessage (m : String) : String :=
  if containsSub "401" m then
    "Invalid API key. Please check your Sea-lion API credentials."
  else if containsSub "429" m then
    "Rate limit exceeded. Please wait before making another request."
  else if containsSub "500" m then
    "Sea-lion API server error. Please try again later."
  else
    "Sea-lion API request failed: " ++ m

/-- **C5 counterexample.** An upstream failure carrying HTTP status 503
(a 5xx status) is *not* classified as an upstream-server failure: the
code only tests for the substring `"500"`, so the 503 failure falls
through to the generic message. -/
theorem C5_counterexample_503_is_generic :
    generateTextFailureMessage "Request failed with status code 503" =
      "Sea-lion API request failed: Request failed with status code 503" ∧
    generateTextFailureMessage "Request failed with status code 503" ≠
      "Sea-lion API server error. Please try again later." := by
  constructor
  · rfl
  · decide

/-- **C5 (amended).** `generateText` classifies a failing upstream call
by substring tests on the error message, in order: a message containing
`"401"` becomes the authentication failure, otherwise one containing
`"429"` the throttling failure, otherwise one containing `"500"` (the
literal status 500 only — not every 5xx status) the upstream-server
failure, and anything else the generic failure prefixed with
`"Sea-lion API request failed: "`; the three fixed messages are
pairwise distinct. -/
theorem C5_upstream_failure_classification (m : String) :
    (containsSub "401" m = true →
      generateTextFailureMessage m =
        "Invalid API key. Please check your Sea-lion API credentials.") ∧
    (containsSub "401" m = false → containsSub "429" m = true →
      generateTextFailureMessage m =
        "Rate limit exceeded. Please wait before making another request.") ∧
    (containsSub "401" m = false → containsSub "429" m = false →
      containsSub "500" m = true →
      generateTextFailureMessage m =
        "Sea-lion API server error. Please try again later.") ∧
    (containsSub "401" m = false → containsSub "429" m = false →
      containsSub "500" m = false →
      generateTextFailureMessage m = "Sea-lion API request failed: " ++ m) ∧
    ("Invalid API key. Please check your Sea-lion API credentials." ≠
        "Rate limit exceeded. Please wait before making another request." ∧
      "Invalid API key. Please check your Sea-lion API credentials." ≠
        "Sea-lion API server error. Please try again later." ∧
      "Rate limit exceeded. Please wait before making another request." ≠
        "Sea-lion API server error. Please try again later.") := by
  refine ⟨?_, ?_, ?_, ?_, by decide, by decide, by decide⟩
  · intro h1; simp [generateTextFailureMessage, h1]
  · intro h1 h2; simp [generateTextFailureMessage, h1, h2]
  · intro h1 h2 h3; simp [generateTextFailureMessage, h1, h2, h3]
  · intro h1 h2 h3; simp [generateTextFailureMessage, h1, h2, h3]

/-- Witness for C5 (amended): one concrete message per class. -/
theorem C5_upstream_failure_classification_witness :
    generateTextFailureMessage "status 401 unauthorized" =
      "Invalid API key. Please check your Sea-lion API credentials." ∧
    generateTextFailureMessage "status 429 too many requests" =
      "Rate limit exceeded. Please wait before making another request." ∧
    generateTextFailureMessage "status 500 server error" =
      "Sea-lion API server error. Please try again later." ∧
    generateTextFailureMessage "connection reset" =
      "Sea-lion API request failed: connection reset" :=
  ⟨(C5_upstream_failure_classification "status 401 unauthorized").1 (by decide),
   (C5_upstream_failure_classification "status 429 too many requests").2.1
     (by decide) (by decide),
   (C5_upstream_failure_classification "status 500 server error").2.2.1
     (by decide) (by decide) (by decide),
   (C5_upstream_failure_classification "connection reset").2.2.2.1
     (by decide) (by decide) (by decide)⟩

/-! ## Tool handlers

Each handler receives validated arguments and the upstream client; its
interaction with `SeaLionClient.generateText` is modelled by an oracle
`gen : ChatRequest → Except String String`.  A handler returns its
result (or wrapped error message) together with the list of chat
requests it issued. -/

/-- The `model` argument enum (`v3` / `v3.5`). -/
inductive ModelVer where
  | v3
  | v3_5
deriving Repr, DecidableEq

/-- `SeaLionModel` identifiers (`types/index.ts`): handlers pick
`V3_5_8B_R` for `v3.5` and `V3_9B_IT` otherwise. -/
def modelName : ModelVer → String
  | .v3_5 => "aisingapore/Llama-SEA-LION-v3.5-8B-R"
  | .v3 => "aisingapore/Gemma-SEA-LION-v3-9B-IT"

/-- JavaScript whitespace for `trim()` (space, tab, LF, VT, FF, CR). -/
def isJsSpace (c : Char) : Bool :=
  c == ' ' || c == '\t' || c == '\n' || c == '\r' ||
    c == Char.ofNat 11 || c == Char.ofNat 12

/-- JavaScript `String.prototype.trim`. -/
def jsTrim (s : String) : String :=
  String.mk (((s.data.dropWhile isJsSpace).reverse.dropWhile isJsSpace).reverse)

/-! ### Text generation (`tools/textGeneration.ts`) -/

/-- Validated arguments of `sealion_generate_text`. -/
structure TextGenerationArgs where
  prompt : String
  model : ModelVer
  max_tokens : Nat
  temperature : Rat
  thinking_mode : Bool
  system_prompt : Option String
deriving Repr, DecidableEq

/-- The `requestParams` object built by `handleTextGeneration`
(lines 42-72). -/
def textGenRequest (args : TextGenerationArgs) : ChatRequest :=
  let messages :=
    (match args.system_prompt with
     | some s => [ChatMessage.mk .system s]
     | none => []) ++ [ChatMessage.mk .user args.prompt]
  { model := modelName args.model
    messages := messages
    max_tokens := some args.max_tokens
    temperature := some args.temperature
    extra_body :=
      if args.model == ModelVer.v3_5 then
        some (if args.thinking_mode then "on" else "off")
      else none }

/-- `handleTextGeneration`: issues one generation request and returns
the response text unchanged on success (line 77: `return response;`). -/
def handleTextGeneration (args : TextGenerationArgs)
    (gen : ChatRequest → Except String String) :
    Except String String × List ChatRequest :=
  let req := textGenRequest args
  match gen req with
  | .ok t => (.ok t, [req])
  | .error e => (.error ("Text generation failed: " ++ e), [req])

/-! ### Translation (`tools/translation.js`) -/

/-- The 11-member supported-language enum. -/
inductive Lang where
  | english | indonesian | thai | vietnamese | filipino
  | malay | burmese | khmer | lao | tamil | chinese
deriving Repr, DecidableEq

def langName : Lang → String
  | .english => "english"
  | .indonesian => "indonesian"
  | .thai => "thai"
  | .vietnamese => "vietnamese"
  | .filipino => "filipino"
  | .malay => "malay"
  | .burmese => "burmese"
  | .khmer => "khmer"
  | .lao => "lao"
  | .tamil => "tamil"
  | .chinese => "chinese"

/-- Validated arguments of `sealion_translate`. -/
structure TranslationArgs where
  text : String
  source_language : Lang
  target_language : Lang
  model : ModelVer
  preserve_cultural_context : Bool
  formal_register : Bool
deriving Repr, DecidableEq

/-- The `requestParams` object built by `handleTranslation`
(lines 54-103). -/
def translationRequest (args : TranslationArgs) : ChatRequest :=
  let culturalContext :=
    if args.preserve_cultural_context then
      " Please preserve cultural nuances, idioms, and context-specific meanings."
    else ""
  let formalRegister :=
    if args.formal_register then
      " Use formal language register appropriate for professional or academic contexts."
    else ""
  let systemPrompt :=
    "You are an expert translator specializing in Southeast Asian languages and cultures. \n    You understand the cultural nuances, idioms, and context-specific meanings of each language." ++
      culturalContext ++ formalRegister
  let userPrompt :=
    "Translate the following text from " ++ langName args.source_language ++
      " to " ++ langName args.target_language ++ ":\n\n\"" ++ args.text ++
      "\"\n\nProvide only the translation without additional explanations."
  { model := modelName args.model
    messages := [ChatMessage.mk .system systemPrompt, ChatMessage.mk .user userPrompt]
    max_tokens := some (max (args.text.length * 2) 256)
    temperature := some (3 / 10)
    extra_body := if args.model == ModelVer.v3_5 then some "on" else none }

/-- `handleTranslation`: same-language short circuit (lines 50-52),
otherwise one generation request whose response is trimmed. -/
def handleTranslation (args : TranslationArgs)
    (gen : ChatRequest → Except String String) :
    Except String String × List ChatRequest :=
  if args.source_language == args.target_language then
    (.ok ("The text is already in " ++ langName args.target_language ++
      ". Original text: " ++ args.text), [])
  else
    let req := translationRequest args
    match gen req with
    | .ok t => (.ok (jsTrim t), [req])
    | .error e => (.error ("Translation failed: " ++ e), [req])

/-! ### Cultural analysis (`tools/culturalAnalysis.ts`) -/

inductive AnalysisType where
  | cultural_context | social_norms | business_etiquette | language_usage
  | religious_sensitivity | generational_differences | regional_variations
deriving Repr, DecidableEq

def analysisTypeName : AnalysisType → String
  | .cultural_context => "cultural_context"
  | .social_norms => "social_norms"
  | .business_etiquette => "business_etiquette"
  | .language_usage => "language_usage"
  | .religious_sensitivity => "religious_sensitivity"
  | .generational_differences => "generational_differences"
  | .regional_variations => "regional_variations"

inductive Country where
  | singapore | malaysia | indonesia | thailand | vietnam
  | philippines | myanmar | cambodia | laos | brunei
deriving Repr, DecidableEq

def countryName : Country → String
  | .singapore => "singapore"
  | .malaysia => "malaysia"
  | .indonesia => "indonesia"
  | .thailand => "thailand"
  | .vietnam => "vietnam"
  | .philippines => "philippines"
  | .myanmar => "myanmar"
  | .cambodia => "cambodia"
  | .laos => "laos"
  | .brunei => "brunei"

inductive DetailLevel where
  | brief | detailed | comprehensive
deriving Repr, DecidableEq

/-- Validated arguments of `sealion_cultural_analysis`. -/
structure CulturalAnalysisArgs where
  content : String
  analysis_type : AnalysisType
  target_country : Option Country
  model : ModelVer
  include_recommendations : Bool
  detail_level : DetailLevel
deriving Repr, DecidableEq

/-- JavaScript `s.replace(c, r)` with single-character string pattern:
replaces only the first occurrence. -/
def replaceFirstUnderscore : List Char → List Char
  | [] => []
  | c :: rest => if c == '_' then ' ' :: rest else c :: replaceFirstUnderscore rest

/-- `s.charAt(0).toUpperCase() + s.slice(1)`. -/
def capitalizeFirst (s : String) : String :=
  match s.data with
  | [] => ""
  | c :: rest => String.mk (c.toUpper :: rest)

/-- `getDetailLevelInstruction` (lines 140-149). -/
def getDetailLevelInstruction : DetailLevel → String
  | .brief => "Provide a concise analysis with key points only."
  | .detailed => "Provide a thorough analysis with examples and context."
  | .comprehensive =>
      "Provide an in-depth analysis with extensive examples, historical context, and cross-cultural comparisons."

/-- `getMaxTokensForDetail` (lines 154-163). -/
def getMaxTokensForDetail : DetailLevel → Nat
  | .brief => 256
  | .detailed => 512
  | .comprehensive => 1024

/-- The per-type instruction sentences of `buildAnalysisPrompt`. -/
def analysisInstruction : AnalysisType → String
  | .cultural_context =>
      "Identify cultural references, meanings, and significance within Southeast Asian contexts."
  | .social_norms =>
      "Analyze how this content relates to social norms, expectations, and behaviors."
  | .business_etiquette =>
      "Evaluate business communication appropriateness and cultural sensitivity."
  | .language_usage =>
      "Examine language choices, formality levels, and cultural appropriateness."
  | .religious_sensitivity =>
      "Assess religious considerations and potential sensitivities."
  | .generational_differences =>
      "Analyze how different generations might perceive this content."
  | .regional_variations =>
      "Compare how this content might be received across different Southeast Asian regions."

/-- `buildAnalysisPrompt` (lines 118-135). -/
def buildAnalysisPrompt (args : CulturalAnalysisArgs) : String :=
  let basePrompt :=
    "Please analyze the following content for " ++
      String.mk (replaceFirstUnderscore (analysisTypeName args.analysis_type).data) ++
      ":\n\n\"" ++ args.content ++ "\"\n\n"
  basePrompt ++ analysisInstruction args.analysis_type ++ " " ++
    getDetailLevelInstruction args.detail_level

/-- The `requestParams` object built by `handleCulturalAnalysis`
(lines 55-103). -/
def culturalRequest (args : CulturalAnalysisArgs) : ChatRequest :=
  let countryContext :=
    match args.target_country with
    | some c => " with specific focus on " ++ capitalizeFirst (countryName c)
    | none => " across Southeast Asian cultures"
  let recommendationsNote :=
    if args.include_recommendations then
      " Include practical recommendations and actionable insights."
    else ""
  let systemPrompt :=
    "You are a Southeast Asian cultural expert with deep understanding of the region\x27s diverse cultures, \n    social norms, business practices, and cultural sensitivities. You specialize in providing accurate cultural analysis \n    and context for content" ++
      countryContext ++ "." ++ recommendationsNote
  { model := modelName args.model
    messages := [ChatMessage.mk .system systemPrompt,
                 ChatMessage.mk .user (buildAnalysisPrompt args)]
    max_tokens := some (getMaxTokensForDetail args.detail_level)
    temperature := some (2 / 5)
    extra_body := if args.model == ModelVer.v3_5 then some "on" else none }

/-- `handleCulturalAnalysis`: one generation request, response trimmed
(line 108: `return analysis.trim();`). -/
def handleCulturalAnalysis (args : CulturalAnalysisArgs)
    (gen : ChatRequest → Except String String) :
    Except String String × List ChatRequest :=
  let req := culturalRequest args
  match gen req with
  | .ok t => (.ok (jsTrim t), [req])
  | .error e => (.error ("Cultural analysis failed: " ++ e), [req])

/-! ## Claims about the tool handlers -/

/-- **C4 counterexample.** With the upstream client returning
`" Hi there "`, the text-generation handler returns the text with its
surrounding whitespace intact (`return response;`), not trimmed. -/
theorem C4_counterexample_textgen_not_trimmed :
    (handleTextGeneration ⟨"Hello", .v3, 512, 1, true, none⟩
        (fun _ => .ok " Hi there ")).1 = .ok " Hi there " ∧
    jsTrim " Hi there " = "Hi there" ∧
    (handleTextGeneration ⟨"Hello", .v3, 512, 1, true, none⟩
        (fun _ => .ok " Hi there ")).1 ≠ .ok (jsTrim " Hi there ") := by
  refine ⟨rfl, rfl, ?_⟩
  have hL : (handleTextGeneration ⟨"Hello", .v3, 512, 1, true, none⟩
      (fun _ => .ok " Hi there ")).1 = Except.ok " Hi there " := rfl
  rw [hL]
  intro h
  exact absurd (Except.ok.inj h) (by decide)

/-- **C4 (amended).** When the upstream client returns text `t`, each
handler issues exactly one generation request; the translation and
cultural-analysis handlers return `t` trimmed of surrounding
whitespace, while the text-generation handler returns `t` verbatim,
untrimmed. -/
theorem C4_handler_result_trimming (t : String) (a : TextGenerationArgs)
    (b : TranslationArgs) (c : CulturalAnalysisArgs)
    (hb : b.source_language ≠ b.target_language) :
    (handleTextGeneration a (fun _ => .ok t)).1 = .ok t ∧
    (handleTextGeneration a (fun _ => .ok t)).2.length = 1 ∧
    (handleTranslation b (fun _ => .ok t)).1 = .ok (jsTrim t) ∧
    (handleTranslation b (fun _ => .ok t)).2.length = 1 ∧
    (handleCulturalAnalysis c (fun _ => .ok t)).1 = .ok (jsTrim t) ∧
    (handleCulturalAnalysis c (fun _ => .ok t)).2.length = 1 := by
  have hbeq : (b.source_language == b.target_language) = false := by
    simp [beq_iff_eq, hb]
  refine ⟨rfl, rfl, ?_, ?_, rfl, rfl⟩ <;>
    simp [handleTranslation, hbeq]

/-- Witness for C4 (amended) at `t = " Hi there "` and concrete
arguments for all three tools. -/
theorem C4_handler_result_trimming_witness :
    (handleTextGeneration ⟨"Hello", .v3_5, 512, 1, true, none⟩
        (fun _ => .ok " Hi there ")).1 = .ok " Hi there " ∧
    (handleTextGeneration ⟨"Hello", .v3_5, 512, 1, true, none⟩
        (fun _ => .ok " Hi there ")).2.length = 1 ∧
    (handleTranslation ⟨"hello", .english, .thai, .v3_5, true, false⟩
        (fun _ => .ok " Hi there ")).1 = .ok (jsTrim " Hi there ") ∧
    (handleTranslation ⟨"hello", .english, .thai, .v3_5, true, false⟩
        (fun _ => .ok " Hi there ")).2.length = 1 ∧
    (handleCulturalAnalysis ⟨"hello", .cultural_context, none, .v3_5, true, .detailed⟩
        (fun _ => .ok " Hi there ")).1 = .ok (jsTrim " Hi there ") ∧
    (handleCulturalAnalysis ⟨"hello", .cultural_context, none, .v3_5, true, .detailed⟩
        (fun _ => .ok " Hi there ")).2.length = 1 :=
  C4_handler_result_trimming " Hi there " ⟨"Hello", .v3_5, 512, 1, true, none⟩
    ⟨"hello", .english, .thai, .v3_5, true, false⟩
    ⟨"hello", .cultural_context, none, .v3_5, true, .detailed⟩ (by decide)

/-- **C6 counterexample.** A valid text-generation invocation with
`temperature = 0` (inside the schema range `[0, 2]`) does not reach the
upstream API with the caller value: `generateText` applies the
JavaScript default `params.temperature || 0.7`, under which `0` is
falsy, so the request carries `0.7`. -/
theorem C6_counterexample_zero_temperature :
    (sentRequestParams (textGenRequest ⟨"Hello", .v3, 512, 0, true, none⟩)).temperature =
      7 / 10 ∧
    (sentRequestParams (textGenRequest ⟨"Hello", .v3, 512, 0, true, none⟩)).temperature ≠
      (0 : Rat) := by
  constructor
  · rfl
  · have hv : (sentRequestParams
        (textGenRequest ⟨"Hello", .v3, 512, 0, true, none⟩)).temperature = 7 / 10 := rfl
    rw [hv]
    norm_num

/-- **C6 (amended).** For every valid text-generation invocation with
temperature in the half-open range `(0, 2]` the chat-completion request
sent upstream carries exactly the caller's temperature, and for
`max_tokens` in `[1, 4096]` exactly the caller's `max_tokens`; the
single excluded point `temperature = 0` is replaced by the client
default `0.7` because of the JavaScript `||` defaulting. -/
theorem C6_caller_parameters_passthrough (args : TextGenerationArgs)
    (h0 : 0 < args.temperature) (_h2 : args.temperature ≤ 2)
    (hm1 : 1 ≤ args.max_tokens) (_hm2 : args.max_tokens ≤ 4096) :
    (sentRequestParams (textGenRequest args)).temperature = args.temperature ∧
    (sentRequestParams (textGenRequest args)).max_tokens = args.max_tokens := by
  constructor
  · have hne : args.temperature ≠ 0 := ne_of_gt h0
    simp [sentRequestParams, textGenRequest, jsOrRat, hne]
  · have hne : args.max_tokens ≠ 0 := by omega
    simp [sentRequestParams, textGenRequest, jsOrNat, hne]

/-- Witness for C6 (amended) at `temperature = 1`, `max_tokens = 512`. -/
theorem C6_caller_parameters_passthrough_witness :
    (sentRequestParams (textGenRequest ⟨"Hello", .v3_5, 512, 1, true, none⟩)).temperature =
      (1 : Rat) ∧
    (sentRequestParams (textGenRequest ⟨"Hello", .v3_5, 512, 1, true, none⟩)).max_tokens =
      512 :=
  C6_caller_parameters_passthrough ⟨"Hello", .v3_5, 512, 1, true, none⟩
    (by decide) (by decide) (by decide) (by decide)

/-- **C7.** A translation invocation whose validated source language
equals its target language short-circuits: the handler returns the
same-language response embedding the input text verbatim as its suffix
and issues no upstream request at all. -/
theorem C7_same_language_short_circuit (args : TranslationArgs)
    (gen : ChatRequest → Except String String)
    (h : args.source_language = args.target_language) :
    handleTranslation args gen =
      (.ok ("The text is already in " ++ langName args.target_language ++
        ". Original text: " ++ args.text), []) := by
  have hbeq : (args.source_language == args.target_language) = true := by
    simp [beq_iff_eq, h]
  simp [handleTranslation, hbeq]

/-- Witness for C7: translating thai to thai returns the annotated
original text and issues no request. -/
theorem C7_same_language_short_circuit_witness :
    handleTranslation ⟨"sawasdee", .thai, .thai, .v3_5, true, false⟩
        (fun _ => .error "upstream must not be called") =
      (.ok ("The text is already in " ++ langName Lang.thai ++
        ". Original text: " ++ "sawasdee"), []) :=
  C7_same_language_short_circuit ⟨"sawasdee", .thai, .thai, .v3_5, true, false⟩
    (fun _ => .error "upstream must not be called") rfl

/-- **C8.** Every cultural-analysis invocation issues exactly the
request built by the handler, whose `max_tokens` as sent upstream is
256 for `brief`, 512 for `detailed`, 1024 for `comprehensive`, with
temperature fixed at 0.4. -/
theorem C8_detail_level_token_budget (args : CulturalAnalysisArgs)
    (gen : ChatRequest → Except String String) :
    (handleCulturalAnalysis args gen).2 = [culturalRequest args] ∧
    (sentRequestParams (culturalRequest args)).max_tokens =
      (match args.detail_level with
       | .brief => 256
       | .detailed => 512
       | .comprehensive => 1024) ∧
    (sentRequestParams (culturalRequest args)).temperature = 2 / 5 := by
  refine ⟨?_, ?_, ?_⟩
  · simp only [handleCulturalAnalysis]
    cases gen (culturalRequest args) <;> rfl
  · cases hd : args.detail_level <;>
      simp [sentRequestParams, culturalRequest, jsOrNat, getMaxTokensForDetail, hd]
  · have hne : (2 / 5 : Rat) ≠ 0 := by norm_num
    simp [sentRequestParams, culturalRequest, jsOrRat, hne]

/-! ## Input sanitization (`server.js`, `sanitizeInput`, string case)

The string branch of `sanitizeInput` applies, in order:
`replace(/<script\b[^<]*(?:(?!<\/script>)<[^<]*)*<\/script>/gi, "")`,
`replace(/javascript:/gi, "")`, `replace(/on\w+\s*=/gi, "")`,
`replace(/['"]/g, "")`, `trim()`.

The first regex matches from a case-insensitive `<script` followed by a
word boundary up to (and including) the first subsequent
case-insensitive `</script>`; i.e. it removes whole script *elements*,
enclosed text included.  The scanners below reproduce the global
left-to-right replace semantics; fuel bounds recursion and always
suffices because every step consumes at least one character. -/

/-- JavaScript `\w`. -/
def isWordChar (c : Char) : Bool :=
  c.isAlphanum || c == '_'

/-- Case-insensitive prefix test. -/
def startsWithCI : List Char → List Char → Bool
  | [], _ => true
  | _ :: _, [] => false
  | a :: as, b :: bs => a.toLower == b.toLower && startsWithCI as bs

/-- Suffix following the first case-insensitive `</script>`, if any. -/
def dropAfterCloseScript : Nat → List Char → Option (List Char)
  | 0, _ => none
  | _, [] => none
  | f + 1, c :: rest =>
    if startsWithCI "</script>".data (c :: rest) then some ((c :: rest).drop 9)
    else dropAfterCloseScript f rest

/-- `replace(/<script\b[^<]*(?:(?!<\/script>)<[^<]*)*<\/script>/gi, "")`. -/
def removeScriptBlocksAux : Nat → List Char → List Char
  | 0, l => l
  | _, [] => []
  | f + 1, c :: rest =>
    if startsWithCI "<script".data (c :: rest) then
      let after := (c :: rest).drop 7
      let boundary :=
        match after with
        | [] => true
        | d :: _ => !(isWordChar d)
      if boundary then
        match dropAfterCloseScript after.length after with
        | some suffix => removeScriptBlocksAux f suffix
        | none => c :: removeScriptBlocksAux f rest
      else c :: removeScriptBlocksAux f rest
    else c :: removeScriptBlocksAux f rest

/-- `replace(/javascript:/gi, "")`. -/
def removeJsProtocolAux : Nat → List Char → List Char
  | 0, l => l
  | _, [] => []
  | f + 1, c :: rest =>
    if startsWithCI "javascript:".data (c :: rest) then
      removeJsProtocolAux f ((c :: rest).drop 11)
    else c :: removeJsProtocolAux f rest

/-- Maximal leading run of `\w` characters and the rest. -/
def spanWordChars : List Char → List Char × List Char
  | [] => ([], [])
  | c :: rest =>
    if isWordChar c then
      let p := spanWordChars rest
      (c :: p.1, p.2)
    else ([], c :: rest)

/-- `replace(/on\w+\s*=/gi, "")`. -/
def removeOnAttrAux : Nat → List Char → List Char
  | 0, l => l
  | _, [] => []
  | f + 1, c :: rest =>
    if c.toLower == 'o' then
      match rest with
      | [] => [c]
      | d :: rest2 =>
        if d.toLower == 'n' then
          let p := spanWordChars rest2
          if p.1.isEmpty then c :: removeOnAttrAux f rest
          else
            match p.2.dropWhile isJsSpace with
            | '=' :: tail => removeOnAttrAux f tail
            | _ => c :: removeOnAttrAux f rest
        else c :: removeOnAttrAux f rest
    else c :: removeOnAttrAux f rest

/-- `replace(/['"]/g, "")`: drop single and double quote characters. -/
def removeQuoteChars (l : List Char) : List Char :=
  l.filter (fun c => !(c == Char.ofNat 39 || c == Char.ofNat 34))

/-- The string case of `sanitizeInput` (server.js, lines 120-129). -/
def sanitizeInputString (s : String) : String :=
  let step1 := removeScriptBlocksAux s.data.length s.data
  let step2 := removeJsProtocolAux step1.length step1
  let step3 := removeOnAttrAux step2.length step2
  let step4 := removeQuoteChars step3
  jsTrim (String.mk step4)

/-- **C3 counterexample.** Sanitizing
`<script>alert(1)</script>hello` does *not* yield `alert(1)hello`: the
script regex removes the whole script element, its enclosed text
included. -/
theorem C3_counterexample_script_contents_removed :
    sanitizeInputString "<script>alert(1)</script>hello" ≠ "alert(1)hello" := by
  decide

/-- **C3 (amended).** The input sanitization function, applied to
`<script>alert(1)</script>hello`, returns `hello`: the script element
is removed together with the text it encloses (and all quote
characters are removed — none occur in the remainder). -/
theorem C3_sanitize_script_example :
    sanitizeInputString "<script>alert(1)</script>hello" = "hello" := by
  decide

/-! ## Cultural-analysis input validators (C10)

Two versions of `CulturalAnalysisSchema` exist in the repository: the
TypeScript source (`src/tools/culturalAnalysis.ts`, lines 31-38) and
the compiled JavaScript (`culturalAnalysis.js`, lines 26-41).  A raw
argument object is modelled by an optional JS value per known field
plus the list of unknown extra keys; validation yields the validated
arguments or fails (error messages, which differ cosmetically between
the two schemas, are outside the claim and not modelled). -/

inductive JSValue where
  | str (s : String)
  | num (q : Rat)
  | boolVal (b : Bool)
  | null
deriving Repr, DecidableEq

structure RawCulturalArgs where
  content : Option JSValue
  analysis_type : Option JSValue
  target_country : Option JSValue
  model : Option JSValue
  include_recommendations : Option JSValue
  detail_level : Option JSValue
  extraKeys : List String
deriving Repr, DecidableEq

def parseAnalysisType : String → Option AnalysisType
  | "cultural_context" => some .cultural_context
  | "social_norms" => some .social_norms
  | "business_etiquette" => some .business_etiquette
  | "language_usage" => some .language_usage
  | "religious_sensitivity" => some .religious_sensitivity
  | "generational_differences" => some .generational_differences
  | "regional_variations" => some .regional_variations
  | _ => none

def parseCountry : String → Option Country
  | "singapore" => some .singapore
  | "malaysia" => some .malaysia
  | "indonesia" => some .indonesia
  | "thailand" => some .thailand
  | "vietnam" => some .vietnam
  | "philippines" => some .philippines
  | "myanmar" => some .myanmar
  | "cambodia" => some .cambodia
  | "laos" => some .laos
  | "brunei" => some .brunei
  | _ => none

def parseModelVer : String → Option ModelVer
  | "v3" => some .v3
  | "v3.5" => some .v3_5
  | _ => none

def parseDetailLevel : String → Option DetailLevel
  | "brief" => some .brief
  | "detailed" => some .detailed
  | "comprehensive" => some .comprehensive
  | _ => none

/-- The TypeScript `CulturalAnalysisSchema`: `content` is
`z.string().min(1)` with no upper bound, the object is *not* `strict`,
so unknown extra keys are stripped and do not cause failure. -/
def culturalValidateTS (r : RawCulturalArgs) : Option CulturalAnalysisArgs := do
  let content ←
    match r.content with
    | some (.str s) => if 1 ≤ s.length then some s else none
    | _ => none
  let atype ←
    match r.analysis_type with
    | none => some AnalysisType.cultural_context
    | some (.str s) => parseAnalysisType s
    | some _ => none
  let country ←
    match r.target_country with
    | none => some none
    | some (.str s) => (parseCountry s).map some
    | some _ => none
  let mv ←
    match r.model with
    | none => some ModelVer.v3_5
    | some (.str s) => parseModelVer s
    | some _ => none
  let recs ←
    match r.include_recommendations with
    | none => some true
    | some (.boolVal b) => some b
    | some _ => none
  let dl ←
    match r.detail_level with
    | none => some DetailLevel.detailed
    | some (.str s) => parseDetailLevel s
    | some _ => none
  some ⟨content, atype, country, mv, recs, dl⟩

/-- The compiled-JavaScript `CulturalAnalysisSchema`: `content` is
`z.string().min(1).max(5000)` and the object is `.strict()`, so any
unknown extra key makes validation fail. -/
def culturalValidateJS (r : RawCulturalArgs) : Option CulturalAnalysisArgs := do
  if !r.extraKeys.isEmpty then none
  else
    let content ←
      match r.content with
      | some (.str s) =>
          if 1 ≤ s.length then
            if s.length ≤ 5000 then some s else none
          else none
      | _ => none
    let atype ←
      match r.analysis_type with
      | none => some AnalysisType.cultural_context
      | some (.str s) => parseAnalysisType s
      | some _ => none
    let country ←
      match r.target_country with
      | none => some none
      | some (.str s) => (parseCountry s).map some
      | some _ => none
    let mv ←
      match r.model with
      | none => some ModelVer.v3_5
      | some (.str s) => parseModelVer s
      | some _ => none
    let recs ←
      match r.include_recommendations with
      | none => some true
      | some (.boolVal b) => some b
      | some _ => none
    let dl ←
      match r.detail_level with
      | none => some DetailLevel.detailed
      | some (.str s) => parseDetailLevel s
      | some _ => none
    some ⟨content, atype, country, mv, recs, dl⟩

/-- **C10 counterexample.** The two validators do not accept the same
argument objects: an object with an unknown extra field is accepted
(stripped) by the TypeScript schema but rejected by the strict compiled
schema, and a content string of 5001 characters is accepted by the
TypeScript schema but rejected by the compiled schema's
`max(5000)`. -/
theorem C10_counterexample_validators_disagree :
    culturalValidateTS ⟨some (.str "x"), none, none, none, none, none, ["foo"]⟩ =
      some ⟨"x", .cultural_context, none, .v3_5, true, .detailed⟩ ∧
    culturalValidateJS ⟨some (.str "x"), none, none, none, none, none, ["foo"]⟩ = none ∧
    (culturalValidateTS ⟨some (.str (String.mk (List.replicate 5001 'a'))),
        none, none, none, none, none, []⟩).isSome = true ∧
    culturalValidateJS ⟨some (.str (String.mk (List.replicate 5001 'a'))),
        none, none, none, none, none, []⟩ = none := by
  have key : ∀ s : String, s.length = 5001 →
      (culturalValidateTS ⟨some (.str s), none, none, none, none, none, []⟩).isSome = true ∧
      culturalValidateJS ⟨some (.str s), none, none, none, none, none, []⟩ = none := by
    intro s hs
    constructor
    · simp [culturalValidateTS, hs]
    · simp [culturalValidateJS, hs]
  have hl : (String.mk (List.replicate 5001 'a')).length = 5001 := by
    show (List.replicate 5001 'a').length = 5001
    rw [List.length_replicate]
  exact ⟨rfl, rfl, (key _ hl).1, (key _ hl).2⟩

/-- **C10 (amended).** On argument objects with no unknown extra fields
and content (when it is a string) of at most 5000 characters, the
TypeScript validator and the compiled-JavaScript validator accept
exactly the same objects and produce the same validated result; they
disagree exactly on objects with unknown extra keys (stripped vs
rejected) or content longer than 5000 characters (accepted vs
rejected). -/
theorem C10_validators_agree_on_common_domain (r : RawCulturalArgs)
    (hkeys : r.extraKeys = [])
    (hlen : ∀ s : String, r.content = some (.str s) → s.length ≤ 5000) :
    culturalValidateTS r = culturalValidateJS r := by
  rcases r with ⟨c, a, tc, m, ir, dl, ek⟩
  subst hkeys
  cases c with
  | none => rfl
  | some v =>
    cases v with
    | str s =>
      have h5 : s.length ≤ 5000 := hlen s rfl
      by_cases h1 : 1 ≤ s.length
      · simp [culturalValidateTS, culturalValidateJS, h1, h5]
      · simp [culturalValidateTS, culturalValidateJS, h1]
    | num q => rfl
    | boolVal b => rfl
    | null => rfl

/-- Witness for C10 (amended) at a concrete in-range object. -/
theorem C10_validators_agree_on_common_domain_witness :
    culturalValidateTS ⟨some (.str "sample"), some (.str "social_norms"),
        some (.str "thailand"), some (.str "v3"), some (.boolVal false),
        some (.str "brief"), []⟩ =
      culturalValidateJS ⟨some (.str "sample"), some (.str "social_norms"),
        some (.str "thailand"), some (.str "v3"), some (.boolVal false),
        some (.str "brief"), []⟩ :=
  C10_validators_agree_on_common_domain
    ⟨some (.str "sample"), some (.str "social_norms"), some (.str "thailand"),
      some (.str "v3"), some (.boolVal false), some (.str "brief"), []⟩
    rfl
    (by
      intro s hs
      have h := Option.some.inj hs
      have h2 := JSValue.str.inj h
      rw [← h2]
      decide)

end SeaLionMCP
